import Mathlib

/-!
Verification development for the zwift-training repository
(scripts create_workout.py, compile_workout.py, validate_zwo.py).

The Python scripts are shallowly embedded: every definition below mirrors a
function of the source.  Python floats are modelled by exact rationals (Rat);
the regular-expression scans of create_workout.py are modelled by a small
backtracking matcher with Python semantics (leftmost position first, greedy
repetition, left alternative first, non-overlapping findall).
-/

set_option maxRecDepth 20000

deriving instance DecidableEq for Except

/-! ### Character helpers -/

/-- ASCII lower-casing, the effect of Python str.lower on the inputs involved. -/
def asciiLower (c : Char) : Char :=
  if 65 ≤ c.toNat ∧ c.toNat ≤ 90 then Char.ofNat (c.toNat + 32) else c

/-- ASCII upper-casing, used by str.capitalize. -/
def asciiUpper (c : Char) : Char :=
  if 97 ≤ c.toNat ∧ c.toNat ≤ 122 then Char.ofNat (c.toNat - 32) else c

/-- Python regex word character (ASCII): letter, digit or underscore. -/
def isWordChar (c : Char) : Bool :=
  (48 ≤ c.toNat && c.toNat ≤ 57) || (65 ≤ c.toNat && c.toNat ≤ 90) ||
    (97 ≤ c.toNat && c.toNat ≤ 122) || c == '_'

/-- ASCII decimal digit test. -/
def isDigitB (c : Char) : Bool := 48 ≤ c.toNat && c.toNat ≤ 57

/-- Python regex whitespace class. -/
def isSpaceB (c : Char) : Bool :=
  c == ' ' || c.toNat == 9 || c.toNat == 10 || c.toNat == 13 ||
    c.toNat == 11 || c.toNat == 12

/-- The apostrophe character (written by code point to keep sources clean). -/
def apos : Char := Char.ofNat 39

/-- The prime character U+2032 used by the interval grammars. -/
def primeC : Char := Char.ofNat 8242

/-- The en-dash U+2013, accepted as a range separator next to the hyphen. -/
def enDash : Char := Char.ofNat 8211

/-- The multiplication sign U+00D7, accepted next to the letter x. -/
def timesSign : Char := Char.ofNat 215

/-! ### A tiny regex engine with Python matching semantics -/

/-- Regular expression syntax: classes, case-insensitive literals, sequence,
alternation (left first), greedy star, numbered capture groups and the word
boundary assertion.  This is exactly the fragment the source patterns use. -/
inductive RE where
  | eps : RE
  | cls : (Char → Bool) → RE
  | liti : Char → RE
  | seq : RE → RE → RE
  | alt : RE → RE → RE
  | star : RE → RE
  | grp : Nat → RE → RE
  | wordB : RE

/-- Matcher state: remaining input, previous character (for word boundaries)
and the capture-group assignments recorded so far (most recent first). -/
structure MState where
  rest : List Char
  prev : Option Char
  caps : List (Nat × List Char)

/-- Backtracking matcher.  Returns all ways the expression can match a prefix
of the remaining input, in Python's preference order: the head of the list is
the match Python's engine would commit to.  Fuel bounds recursion depth. -/
def mmatch : Nat → RE → MState → List MState
  | 0, _, _ => []
  | _ + 1, .eps, s => [s]
  | _ + 1, .cls p, s =>
    match s.rest with
    | [] => []
    | c :: cs => if p c then [⟨cs, some c, s.caps⟩] else []
  | _ + 1, .liti c0, s =>
    match s.rest with
    | [] => []
    | c :: cs => if asciiLower c == asciiLower c0 then [⟨cs, some c, s.caps⟩] else []
  | fuel + 1, .seq a b, s => (mmatch fuel a s).flatMap (fun s2 => mmatch fuel b s2)
  | fuel + 1, .alt a b, s => mmatch fuel a s ++ mmatch fuel b s
  | fuel + 1, .star a, s =>
    ((mmatch fuel a s).filter (fun s2 => s2.rest.length < s.rest.length)).flatMap
      (fun s2 => mmatch fuel (.star a) s2) ++ [s]
  | fuel + 1, .grp n a, s =>
    (mmatch fuel a s).map (fun s2 =>
      ⟨s2.rest, s2.prev, (n, s.rest.take (s.rest.length - s2.rest.length)) :: s2.caps⟩)
  | _ + 1, .wordB, s =>
    let pw := match s.prev with | some c => isWordChar c | none => false
    let nw := match s.rest with | c :: _ => isWordChar c | [] => false
    if pw != nw then [s] else []

/-- One regex match: the matched substring and the group captures. -/
structure RMatch where
  whole : List Char
  caps : List (Nat × List Char)
deriving DecidableEq

/-- Group lookup: the most recent capture recorded for the group, none if the
group never matched (Python returns None for such groups). -/
def RMatch.cap (m : RMatch) (n : Nat) : Option (List Char) :=
  (m.caps.find? (fun p => p.1 == n)).map (·.2)

/-- Fuel that comfortably bounds the matcher's recursion depth on the source
patterns (pattern sizes are fixed, each star iteration consumes input). -/
def bigFuel (t : List Char) : Nat := 2000 + 50 * t.length

/-- Scan for the leftmost match: try each start position in order and take the
engine's preferred match there.  Also returns the rest after the match and the
character just before that rest, to let scanning resume. -/
def searchAux (fuel : Nat) (re : RE) : List Char → Option Char → Option (RMatch × List Char × Option Char)
  | [], prev =>
    match mmatch fuel re ⟨[], prev, []⟩ with
    | s2 :: _ => some (⟨[], s2.caps⟩, s2.rest, s2.prev)
    | [] => none
  | c :: cs, prev =>
    match mmatch fuel re ⟨c :: cs, prev, []⟩ with
    | s2 :: _ =>
      some (⟨(c :: cs).take ((c :: cs).length - s2.rest.length), s2.caps⟩, s2.rest, s2.prev)
    | [] => searchAux fuel re cs (some c)

/-- Python re.search on a character list. -/
def reSearch (re : RE) (t : List Char) : Option RMatch :=
  (searchAux (bigFuel t) re t none).map (·.1)

/-- Python re.findall / re.finditer: repeated non-overlapping leftmost
matches; after an empty match the scan advances one character. -/
def findAllAux (fuel : Nat) (re : RE) : Nat → List Char → Option Char → List RMatch
  | 0, _, _ => []
  | k + 1, rest, prev =>
    match searchAux fuel re rest prev with
    | none => []
    | some (m, rest2, prev2) =>
      m :: (if m.whole.isEmpty then
              match rest2 with
              | [] => []
              | c :: cs => findAllAux fuel re k cs (some c)
            else findAllAux fuel re k rest2 prev2)

/-- All matches of the pattern over the text, leftmost first. -/
def findAll (re : RE) (t : List Char) : List RMatch :=
  findAllAux (bigFuel t) re (t.length + 1) t none

/-! ### Pattern construction helpers -/

/-- Sequence of a list of expressions. -/
def reSeq : List RE → RE
  | [] => .eps
  | r :: rs => .seq r (reSeq rs)

/-- Alternation, first alternative preferred (Python semantics). -/
def reAlt : List RE → RE
  | [] => .eps
  | [r] => r
  | r :: rs => .alt r (reAlt rs)

/-- Case-sensitive single character. -/
def reChar (c : Char) : RE := .cls (fun x => x == c)

/-- Case-sensitive literal string. -/
def reStr (s : String) : RE := reSeq (s.data.map reChar)

/-- Case-insensitive literal string (patterns compiled with IGNORECASE). -/
def reStrI (s : String) : RE := reSeq (s.data.map RE.liti)

/-- Greedy option. -/
def reOpt (r : RE) : RE := .alt r .eps

/-- Greedy plus. -/
def rePlus (r : RE) : RE := .seq r (.star r)

/-- Digit class. -/
def reDigit : RE := .cls isDigitB

/-- Whitespace star. -/
def wsStar : RE := .star (.cls isSpaceB)

/-- Range separator class, hyphen or en-dash. -/
def dashCls : RE := .cls (fun c => c == '-' || c == enDash)

/-- Quote class: prime or apostrophe, the minute markers of the grammars. -/
def quoteCls : RE := .cls (fun c => c == primeC || c == apos)

/-- Repeat marker class: the letter x (either case) or the times sign. -/
def xCls : RE := .alt (.liti 'x') (reChar timesSign)

/-- Captured unsigned decimal number with optional fractional part. -/
def numCapRE (n : Nat) : RE :=
  .grp n (reSeq [rePlus reDigit, reOpt (reSeq [reChar '.', rePlus reDigit])])

/-- Captured digit run. -/
def intCapRE (n : Nat) : RE := .grp n (rePlus reDigit)

/-! ### Python number conversions (floats modelled by exact rationals) -/

/-- Python error values observable through the embedded functions. -/
inductive PyErr where
  | planError : String → PyErr
  | valueError : String → PyErr
  | typeError : PyErr
  | convError : PyErr
  | outOfFuel : PyErr
deriving DecidableEq

/-- Digits to a natural number. -/
def digitsToNat (cs : List Char) : Nat :=
  cs.foldl (fun a c => a * 10 + (c.toNat - 48)) 0

/-- Python int(str): a non-empty digit run, anything else raises. -/
def pyIntStr (cs : List Char) : Except PyErr Int :=
  if cs ≠ [] ∧ cs.all isDigitB then .ok (digitsToNat cs) else .error .convError

/-- Python float(str) on the shapes the scans can capture: digits with at
most one decimal point (including forms like 5. and .5); anything else,
such as repeated dots, raises ValueError. -/
def pyFloatStr (cs : List Char) : Except PyErr Rat :=
  let intPart := cs.takeWhile (fun c => c != '.')
  let restPart := cs.dropWhile (fun c => c != '.')
  match restPart with
  | [] =>
    if cs ≠ [] ∧ cs.all isDigitB then .ok (digitsToNat cs) else .error .convError
  | _ :: fracPart =>
    if (intPart ≠ [] ∨ fracPart ≠ []) ∧ intPart.all isDigitB ∧ fracPart.all isDigitB then
      .ok ((digitsToNat intPart : Rat) + (digitsToNat fracPart : Rat) / ((10 : Rat) ^ fracPart.length))
    else .error .convError

/-- Python int() truncation toward zero of a real value. -/
def pyTrunc (q : Rat) : Int := if 0 ≤ q then q.floor else -((-q).floor)

/-- Python round(): round half to even. -/
def pyRound (q : Rat) : Int :=
  let f := q.floor
  let r := q - (f : Rat)
  if r < 1/2 then f else if r > 1/2 then f + 1 else if f % 2 = 0 then f else f + 1

/-- Python truthiness of an optional captured string: None and the empty
string are falsy (the `or` fallbacks of the source). -/
def truthyCap : Option (List Char) → Option (List Char)
  | some [] => none
  | some cs => some cs
  | none => none

/-! ### create_workout.py: parse_total_minutes -/

/-- Pattern for a minute range such as 20-30 min (source line 37). -/
def rangeMinutesRE : RE :=
  reSeq [numCapRE 1, wsStar, dashCls, wsStar, numCapRE 2, wsStar,
    reAlt [reStr ("min"), reStr ("minutes"), reStr ("m")], .wordB]

/-- Pattern for a single minutes value (source line 41). -/
def singleMinutesRE : RE :=
  reSeq [.wordB, numCapRE 1, wsStar,
    reAlt [reStr ("min"), reStr ("minutes"), reStr ("m")], .wordB]

/-- Pattern for an hour range (source line 45). -/
def rangeHoursRE : RE :=
  reSeq [numCapRE 1, wsStar, dashCls, wsStar, numCapRE 2, wsStar,
    reAlt [reStr ("hour"), reStr ("hours"), reStr ("hr"), reStr ("h")], .wordB]

/-- Pattern for a single hours value (source line 49). -/
def singleHoursRE : RE :=
  reSeq [.wordB, numCapRE 1, wsStar,
    reAlt [reStr ("hour"), reStr ("hours"), reStr ("hr"), reStr ("h")], .wordB]

/-- float() of a capture that the number patterns produced; the default is
never reached for regex-produced captures. -/
def capFloat (cs : List Char) : Rat :=
  match pyFloatStr cs with
  | .ok q => q
  | .error _ => 0

/-- Contribution of the minute-range category: int(float()) of the upper
bound of the last match, 0 when the category has no match. -/
def rangeMinutesContrib (t : List Char) : Nat :=
  match (findAll rangeMinutesRE t).getLast? with
  | some m => (pyTrunc (capFloat ((m.cap 2).getD []))).toNat
  | none => 0

/-- Contribution of the single-minutes category: last match wins. -/
def singleMinutesContrib (t : List Char) : Nat :=
  match (findAll singleMinutesRE t).getLast? with
  | some m => (pyTrunc (capFloat ((m.cap 1).getD []))).toNat
  | none => 0

/-- Contribution of the hour-range category: upper bound of the last match
converted at 60 minutes per hour. -/
def rangeHoursContrib (t : List Char) : Nat :=
  match (findAll rangeHoursRE t).getLast? with
  | some m => (pyTrunc (capFloat ((m.cap 2).getD []) * 60)).toNat
  | none => 0

/-- Contribution of the single-hours category, converted at 60 minutes per
hour, last match wins. -/
def singleHoursContrib (t : List Char) : Nat :=
  match (findAll singleHoursRE t).getLast? with
  | some m => (pyTrunc (capFloat ((m.cap 1).getD []) * 60)).toNat
  | none => 0

/-- Embedding of parse_total_minutes (source lines 33-53): lower-case the
text, add the contribution of each of the four phrase categories, and return
None when the sum is zero. -/
def parse_total_minutes (s : String) : Option Nat :=
  let t := s.data.map asciiLower
  let total := rangeMinutesContrib t + singleMinutesContrib t +
    rangeHoursContrib t + singleHoursContrib t
  if total == 0 then none else some total

/-! ### create_workout.py: interval extraction -/

/-- The IntervalBlock dataclass (source lines 84-96).  The field repeatCount
embeds the source field named repeat. -/
structure IntervalBlock where
  repeatCount : Int
  on_seconds : Int
  on_power : Option Rat
  off_seconds : Int
  off_power : Option Rat
  on_power_low : Option Rat := none
  on_power_high : Option Rat := none
  off_power_low : Option Rat := none
  off_power_high : Option Rat := none
  cadence : Option Int := none
  cadence_resting : Option Int := none
deriving DecidableEq

/-- The SetBlock dataclass (source lines 99-103). -/
structure SetBlock where
  repeatCount : Int
  interval : IntervalBlock
  rest_between_sets_seconds : Int
deriving DecidableEq

/-- Rest-cadence pattern (source lines 113-116). -/
def cadenceRestRE : RE :=
  reSeq [.grp 1 (reAlt [reStr ("rest cadence"), reStr ("cadence rest"), reStr ("rbi cadence")]),
    wsStar, intCapRE 2, reOpt (reSeq [wsStar, dashCls, wsStar, intCapRE 3])]

/-- Work-cadence pattern (source lines 119-121). -/
def cadenceRE : RE :=
  reSeq [.wordB, reStr ("cadence"), .wordB, wsStar, intCapRE 1,
    reOpt (reSeq [wsStar, dashCls, wsStar, intCapRE 2])]

/-- The set grammar S x [ R x D min @... C min rbi ] E min rbs
(source lines 125-128, compiled with IGNORECASE). -/
def setRE : RE :=
  reSeq [intCapRE 1, wsStar, xCls, wsStar, reChar '[', wsStar, intCapRE 2, wsStar,
    xCls, wsStar, intCapRE 3, wsStar, quoteCls, wsStar,
    reOpt (reSeq [reChar '@', rePlus (.cls (fun c => c != ']'))]), wsStar,
    intCapRE 4, wsStar, quoteCls, wsStar, reStrI ("rbi"), wsStar, reChar ']', wsStar,
    intCapRE 5, wsStar, quoteCls, wsStar, reStrI ("rbs")]

/-- The simple interval grammar N[-M] x D min @ P[-Q][unit]
(source lines 154-157, compiled with IGNORECASE). -/
def intervalRE : RE :=
  reSeq [intCapRE 1, reOpt (reSeq [wsStar, dashCls, wsStar, intCapRE 2]), wsStar,
    xCls, wsStar, intCapRE 3, wsStar, quoteCls, wsStar, reChar '@', wsStar,
    .grp 4 (rePlus (.cls (fun c => isDigitB c || c == '.'))),
    reOpt (reSeq [wsStar, dashCls, wsStar,
      .grp 5 (rePlus (.cls (fun c => isDigitB c || c == '.')))]), wsStar,
    reOpt (.grp 6 (reAlt [reChar '%', reStrI ("percent"), .liti 'w', reStrI ("watts")]))]

/-- Construction of the interval block from one simple-interval match after
units are resolved (source lines 179-195): the single on_power is set exactly
when low and high agree, the low/high fields are always set, the off power is
fixed at 0.5 and the off duration equals the on duration. -/
def buildIntervalBlock (rep onMin : Int) (l h : Rat) (cw cr : Option Int) : IntervalBlock :=
  { repeatCount := rep
    on_seconds := onMin * 60
    on_power := if l == h then some l else none
    off_seconds := onMin * 60
    off_power := some (1/2)
    on_power_low := some l
    on_power_high := some h
    cadence := cw
    cadence_resting := cr }

/-- Loop body of parse_intervals for one simple-interval match (source lines
159-195): numbers are parsed first, then the unit suffix is resolved, with
the fallback that a percent sign anywhere in the matched substring stands in
for a missing suffix; an unresolved unit raises. -/
def processIntervalMatch (cw cr : Option Int) (ftp : Option Rat) (m : RMatch) :
    Except PyErr IntervalBlock := do
  let g1 := (m.cap 1).getD []
  let _repeatMin ← pyIntStr g1
  let rep ← pyIntStr ((truthyCap (m.cap 2)).getD g1)
  let onMin ← pyIntStr ((m.cap 3).getD [])
  let g4 := (m.cap 4).getD []
  let pLow ← pyFloatStr g4
  let pHigh ← pyFloatStr ((truthyCap (m.cap 5)).getD g4)
  let unit : String :=
    match truthyCap (m.cap 6) with
    | some u => String.mk u
    | none => if m.whole.contains '%' then "%" else ""
  if unit == "%" || unit == "percent" then
    .ok (buildIntervalBlock rep onMin (pLow / 100) (pHigh / 100) cw cr)
  else if unit == "w" || unit == "watts" then
    match ftp with
    | none => .error (.valueError ("FTP is required when using watt-based intervals"))
    | some f =>
      if f == 0 then .error (.valueError ("FTP is required when using watt-based intervals"))
      else .ok (buildIntervalBlock rep onMin (pLow / f) (pHigh / f) cw cr)
  else
    .error (.valueError ("Could not determine interval units; use % of FTP or watts"))

/-- Integer value of a digit capture used where the source int() cannot fail. -/
def intCapOpt (o : Option (List Char)) : Option Int :=
  match o with
  | some cs =>
    match pyIntStr cs with
    | .ok v => some v
    | .error _ => none
  | none => none

/-- Embedding of parse_intervals (source lines 106-197): cadence scans on the
lower-cased text, then the set grammar (first match governs, searched on the
original text), otherwise every simple-interval match in order. -/
def parse_intervals (s : String) (ftp : Option Rat) :
    Except PyErr (List IntervalBlock × List SetBlock) := do
  let textLower := s.data.map asciiLower
  let text := s.data
  let cr : Option Int :=
    match reSearch cadenceRestRE textLower with
    | some m => intCapOpt (m.cap 2)
    | none => none
  let cw : Option Int :=
    match reSearch cadenceRE textLower with
    | some m => intCapOpt (m.cap 1)
    | none => none
  match reSearch setRE text with
  | some m => do
    let sets ← pyIntStr ((m.cap 1).getD [])
    let reps ← pyIntStr ((m.cap 2).getD [])
    let onM ← pyIntStr ((m.cap 3).getD [])
    let rbiM ← pyIntStr ((m.cap 4).getD [])
    let rbsM ← pyIntStr ((m.cap 5).getD [])
    .ok ([], [{ repeatCount := sets
                interval :=
                  { repeatCount := reps
                    on_seconds := onM * 60
                    on_power := some (21/20)
                    off_seconds := rbiM * 60
                    off_power := some (1/2)
                    cadence := cw
                    cadence_resting := cr }
                rest_between_sets_seconds := rbsM * 60 }])
  | none => do
    let ibs ← (findAll intervalRE text).mapM (processIntervalMatch cw cr ftp)
    .ok (ibs, [])

/-- The free-text input of claim C4, built by code point to avoid quote
characters in source literals: 6x3-prime space at-sign 105-110 percent
3-prime rbi. -/
def c4text : String :=
  String.mk (['6', 'x', '3', apos] ++ (" @105-110% ").data ++ ['3', apos] ++ (" rbi").data)

/-- The free-text input of claim C6: 4x5-prime space at-sign 100 percent. -/
def c6text : String :=
  String.mk (['4', 'x', '5', apos] ++ (" @100%").data)

/-! ### create_workout.py: warmup, cooldown and the duration budget -/

/-- Constant STANDARD_COOLDOWN_SECONDS (source line 20). -/
def STANDARD_COOLDOWN_SECONDS : Nat := 600

/-- Constant MIN_COOLDOWN_SECONDS (source line 21). -/
def MIN_COOLDOWN_SECONDS : Nat := 300

/-- One emitted warmup dictionary (source lines 200-216): tag, duration and
the optional numeric attributes the five blocks carry. -/
structure WBlock where
  tag : String
  duration : Nat
  powerLow : Option Rat := none
  powerHigh : Option Rat := none
  power : Option Rat := none
  flatRoad : Option Nat := none
  cadence : Option Nat := none
deriving DecidableEq

/-- The short-workout condition of standard_warmup (source line 201): total
known and under 45 minutes. -/
def warmupShort (tm : Option Nat) : Bool :=
  match tm with | some m => m < 45 | none => false

/-- Embedding of standard_warmup (source lines 200-216): the first ramp block
is 300 s when the total is known and under 45 minutes, else 600 s, followed by
the fixed four 60-second blocks. -/
def standard_warmup (tm : Option Nat) : List WBlock :=
  let short : Bool := warmupShort tm
  ({ tag := "Warmup", duration := if short then 300 else 600,
     powerLow := some (1/2), powerHigh := some (77/100) } : WBlock) ::
  [{ tag := "FreeRide", duration := 60, flatRoad := some 1, cadence := some 110 },
   { tag := "SteadyState", duration := 60, power := some (1/2) },
   { tag := "FreeRide", duration := 60, flatRoad := some 1, cadence := some 110 },
   { tag := "SteadyState", duration := 60, power := some (1/2) }]

/-- warmup_seconds of build_workout (source line 240): total duration of the
standard warmup blocks. -/
def warmupSeconds (tm : Option Nat) : Nat :=
  ((standard_warmup tm).map (·.duration)).sum

/-- Cooldown seconds before the feasibility check (source lines 242-243):
explicit minutes (0 is falsy and falls back to the 10-minute default),
times 60, clamped up to the 300 s floor. -/
def cooldownSecondsInit (cm : Option Nat) : Nat :=
  max MIN_COOLDOWN_SECONDS
    ((match cm with
      | some m => if m == 0 then STANDARD_COOLDOWN_SECONDS / 60 else m
      | none => STANDARD_COOLDOWN_SECONDS / 60) * 60)

/-- intervals_seconds of build_workout (source lines 245-252). -/
def intervalsSeconds (ibs : List IntervalBlock) (sbs : List SetBlock) : Int :=
  (ibs.map (fun b => b.repeatCount * (b.on_seconds + b.off_seconds))).sum +
    (sbs.map (fun sb =>
      sb.repeatCount *
        (sb.interval.repeatCount * (sb.interval.on_seconds + sb.interval.off_seconds) +
          sb.rest_between_sets_seconds))).sum

/-- The duration budget resolution of build_workout (source lines 239-263):
returns the final cooldown seconds and the base segment seconds.  A zero
total is falsy in the source, so the budget is skipped (base stays 0); a
negative base triggers one retry with the cooldown forced to the floor, and a
still-negative base raises. -/
def resolveBudget (tm cm : Option Nat) (ibs : List IntervalBlock) (sbs : List SetBlock) :
    Except PyErr (Nat × Int) :=
  let w : Int := (warmupSeconds tm : Nat)
  let c1 := cooldownSecondsInit cm
  let i := intervalsSeconds ibs sbs
  match (match tm with
         | some m => if m == 0 then none else some ((m : Int) * 60)
         | none => none) with
  | none => .ok (c1, 0)
  | some t =>
    let b1 := t - w - (c1 : Int) - i
    if b1 < 0 then
      let b2 := t - w - (MIN_COOLDOWN_SECONDS : Int) - i
      if b2 < 0 then .error (.valueError ("Not enough time for warmup/intervals/cooldown"))
      else .ok (MIN_COOLDOWN_SECONDS, b2)
    else .ok (c1, b1)

/-- Number of base SteadyState blocks build_workout emits (source line 285):
one exactly when the resolved base seconds are positive. -/
def baseBlockCount (tm cm : Option Nat) (ibs : List IntervalBlock) (sbs : List SetBlock) : Nat :=
  match resolveBudget tm cm ibs sbs with
  | .ok (_, b) => if 0 < b then 1 else 0
  | .error _ => 0

/-- Attribute values of emitted elements.  Numeric str()/format rendering is
abstracted to the exact numeric value. -/
inductive AVal where
  | num : Rat → AVal
  | str : String → AVal
deriving DecidableEq

/-- The attribute list build_workout emits for one IntervalsT element from a
simple interval block (source lines 288-310): the fixed triple, then every
optional field that is set, in source order. -/
def intervalAttrs (b : IntervalBlock) : List (String × AVal) :=
  [("Repeat", AVal.num b.repeatCount), ("OnDuration", AVal.num b.on_seconds),
   ("OffDuration", AVal.num b.off_seconds)] ++
  (match b.on_power with | some p => [("OnPower", AVal.num p)] | none => []) ++
  (match b.off_power with | some p => [("OffPower", AVal.num p)] | none => []) ++
  (match b.on_power_low with | some p => [("PowerOnLow", AVal.num p)] | none => []) ++
  (match b.on_power_high with | some p => [("PowerOnHigh", AVal.num p)] | none => []) ++
  (match b.off_power_low with | some p => [("PowerOffLow", AVal.num p)] | none => []) ++
  (match b.off_power_high with | some p => [("PowerOffHigh", AVal.num p)] | none => []) ++
  (match b.cadence with | some c => [("Cadence", AVal.num c)] | none => []) ++
  (match b.cadence_resting with | some c => [("CadenceResting", AVal.num c)] | none => [])

/-! ### compile_workout.py: plan values, the unit normalizer and emission -/

/-- A plan value as loaded from YAML/JSON: null, a number (floats modelled
exactly), a string, a list, or a power dictionary carrying its optional
numeric pct and watts entries (other keys fall to the error branch). -/
inductive PVal where
  | pnone : PVal
  | pnum : Rat → PVal
  | pstr : String → PVal
  | plist : List PVal → PVal
  | pdict : Option Rat → Option Rat → PVal

/-- Python float() of a plan value: numbers pass through, numeric strings are
parsed, everything else raises. -/
def pyFloatVal : PVal → Except PyErr Rat
  | .pnum q => .ok q
  | .pstr s => pyFloatStr s.data
  | _ => .error .typeError

/-- Python int() of a plan value: numbers truncate toward zero, digit strings
parse, everything else raises. -/
def pyIntVal : PVal → Except PyErr Int
  | .pnum q => .ok (pyTrunc q)
  | .pstr s => pyIntStr s.data
  | _ => .error .typeError

/-- The ZONE_POWER table (compile_workout.py lines 20-27, identical in
create_workout.py lines 23-30). -/
def ZONE_POWER : List (String × Rat) :=
  [("z1", 11/20), ("z2", 13/20), ("z3", 3/4), ("z4", 9/10), ("z5", 21/20), ("z6", 6/5)]

/-- Lookup in the zone table. -/
def zoneLookup (k : String) : Option Rat :=
  (ZONE_POWER.find? (fun p => p.1 == k)).map (·.2)

/-- Embedding of power_to_ratio (compile_workout.py lines 55-79).  Only
two-element lists take the range branch; other lists fall through to the
final numeric coercion, which raises TypeError on a list. -/
def power_to_ratio (v : PVal) (ftp : Option Rat) (field : String) :
    Except PyErr (Option Rat × Option Rat × Bool) :=
  match v with
  | .pnone => .ok (none, none, false)
  | .plist [a, b] => do
    let la ← power_to_ratio a ftp field
    let lb ← power_to_ratio b ftp field
    .ok (la.1, lb.1, true)
  | .plist [] => .error .typeError
  | .plist [_] => .error .typeError
  | .plist (_ :: _ :: _ :: _) => .error .typeError
  | .pstr s =>
    let key := (String.mk (s.data.map asciiLower)).trim
    match zoneLookup key with
    | some z => .ok (some z, none, false)
    | none => .error (.planError (("Unsupported power string for ") ++ field))
  | .pdict pct watts =>
    match pct with
    | some q => .ok (some (q / 100), none, false)
    | none =>
      match watts with
      | some wv =>
        match ftp with
        | none => .error (.planError (("FTP required for watts in ") ++ field))
        | some f =>
          if f == 0 then .error (.planError (("FTP required for watts in ") ++ field))
          else .ok (some (wv / f), none, false)
      | none => .error (.planError (("Unsupported power dict for ") ++ field))
  | .pnum q => .ok (some q, none, false)

/-- Embedding of require_power (compile_workout.py lines 82-85) on the
float-or-raw-value intermediates of emit_block. -/
def require_power (v : Option PVal) (field : String) : Except PyErr Rat :=
  match v with
  | none => .error (.planError (field ++ (" is required")))
  | some pv => pyFloatVal pv

/-- Embedding of to_seconds (compile_workout.py lines 49-52). -/
def to_seconds (m : Option PVal) : Except PyErr Int :=
  match m with
  | none => .ok 0
  | some v => do
    let q ← pyFloatVal v
    .ok (pyRound (q * 60))

/-- One emitted XML workout element: tag plus attributes in insertion order. -/
structure ZElem where
  tag : String
  attrs : List (String × AVal)
deriving DecidableEq

/-- The compile-side standard_warmup (compile_workout.py lines 88-95),
unconditionally the 600 s long variant, rendered as elements. -/
def compileWarmupElems : List ZElem :=
  [⟨"Warmup", [("Duration", AVal.num 600), ("PowerLow", AVal.num (1/2)),
      ("PowerHigh", AVal.num (77/100))]⟩,
   ⟨"FreeRide", [("Duration", AVal.num 60), ("FlatRoad", AVal.num 1),
      ("Cadence", AVal.num 110)]⟩,
   ⟨"SteadyState", [("Duration", AVal.num 60), ("Power", AVal.num (1/2))]⟩,
   ⟨"FreeRide", [("Duration", AVal.num 60), ("FlatRoad", AVal.num 1),
      ("Cadence", AVal.num 110)]⟩,
   ⟨"SteadyState", [("Duration", AVal.num 60), ("Power", AVal.num (1/2))]⟩]

/-- A plan block: one optional field per dictionary key emit_block reads.
The field btype embeds key type, children embeds key blocks, repeatF embeds
key repeat. -/
structure PBlock where
  btype : Option String := none
  times : Option PVal := none
  children : List PBlock := []
  minutes : Option PVal := none
  seconds : Option PVal := none
  power : Option PVal := none
  power_low : Option PVal := none
  power_high : Option PVal := none
  cadence : Option PVal := none
  flat_road : Option PVal := none
  repeatF : Option PVal := none
  on_minutes : Option PVal := none
  on_seconds : Option PVal := none
  off_minutes : Option PVal := none
  off_seconds : Option PVal := none
  on_power : Option PVal := none
  off_power : Option PVal := none
  cadence_rest : Option PVal := none
  time_offset : Option PVal := none
  message : Option PVal := none

/-- The block with every key absent; concrete plan blocks are built from it
by field update. -/
def PBlock.empty : PBlock :=
  ⟨none, none, [], none, none, none, none, none, none, none,
   none, none, none, none, none, none, none, none, none, none⟩

/-- Python str.capitalize on the block-type tags. -/
def pyCapitalize (s : String) : String :=
  match s.data with
  | [] => ""
  | c :: cs => String.mk (asciiUpper c :: cs.map asciiLower)

/-- Duration resolution with the source's falsy-or chain: to_seconds of the
minutes key, and only when that is zero, int() of the seconds key. -/
def blockDuration (minutes seconds : Option PVal) : Except PyErr Int := do
  let dm ← to_seconds minutes
  if dm != 0 then pure dm else pyIntVal (seconds.getD (.pnum 0))

/-- Optional Cadence attribute (str(int(block[key]))). -/
def cadenceAttr (name : String) (v : Option PVal) : Except PyErr (List (String × AVal)) :=
  match v with
  | some pv => do
    let c ← pyIntVal pv
    pure [(name, AVal.num c)]
  | none => pure []

/-- Python truthiness of a plan value, used by the textevent message check. -/
def pvFalsy : PVal → Bool
  | .pnone => true
  | .pnum q => q == 0
  | .pstr s => s == ""
  | .plist l => l.isEmpty
  | .pdict p w => p.isNone && w.isNone

/-- String rendering of a plan value for the textevent message; numeric
rendering is abstracted to the numeric attribute value. -/
def pvAttr : PVal → AVal
  | .pstr s => .str s
  | .pnum q => .num q
  | _ => .str ""

/-- Embedding of emit_block (compile_workout.py lines 98-226), producing the
elements the block appends.  Fuel bounds the recursion depth of the block
tree: with fuel exceeding the tree depth (as every finite plan admits) the
function agrees with the source.  A repeat block contributes its children
emitted once, concatenated times times, which agrees with the source's
re-emission loop because emission is pure. -/
def emit_block : Nat → Option Rat → PBlock → Except PyErr (List ZElem)
  | 0, _, _ => .error .outOfFuel
  | fuel + 1, ftp, b =>
  match (match b.btype with | some t => if t == "" then none else some t | none => none) with
  | none => .error (.planError ("Block missing type"))
  | some bt =>
    if bt == "standard_warmup" then
      .ok compileWarmupElems
    else if bt == "repeat" then do
      let times ← pyIntVal (b.times.getD (.pnum 0))
      if times ≤ 0 then .error (.planError ("repeat.times must be > 0"))
      else do
        let parts ← b.children.mapM (emit_block fuel ftp)
        .ok (List.flatten (List.replicate times.toNat parts.flatten))
    else if bt == "warmup" || bt == "cooldown" || bt == "ramp" then do
      let duration ← blockDuration b.minutes b.seconds
      if duration ≤ 0 then .error (.planError (bt ++ (" requires minutes or seconds")))
      else do
        let r ← power_to_ratio (b.power.getD .pnone) ftp ("power")
        let plv : Option PVal :=
          if r.2.2 then r.1.map .pnum
          else match b.power_low with | some v => some v | none => r.1.map .pnum
        let phv : Option PVal :=
          if r.2.2 then r.2.1.map .pnum
          else match b.power_high with | some v => some v | none => r.2.1.map .pnum
        if !r.2.2 && (plv.isNone || phv.isNone) then
          .error (.planError (bt ++ (" requires power_low/power_high or power range")))
        else do
          let plq ← require_power plv ("power_low")
          let phq ← require_power phv ("power_high")
          let cad ← cadenceAttr ("Cadence") b.cadence
          .ok [⟨pyCapitalize bt,
            [("Duration", AVal.num duration), ("PowerLow", AVal.num plq),
             ("PowerHigh", AVal.num phq)] ++ cad⟩]
    else if bt == "steadystate" then do
      let duration ← blockDuration b.minutes b.seconds
      if duration ≤ 0 then .error (.planError ("steady requires minutes or seconds"))
      else do
        let r ← power_to_ratio (b.power.getD .pnone) ftp ("power")
        match r.1 with
        | none => .error (.planError ("steady requires power"))
        | some pq => do
          let cad ← cadenceAttr ("Cadence") b.cadence
          .ok [⟨"SteadyState", [("Duration", AVal.num duration), ("Power", AVal.num pq)] ++ cad⟩]
    else if bt == "freeride" then do
      let duration ← blockDuration b.minutes b.seconds
      if duration ≤ 0 then .error (.planError ("freeride requires minutes or seconds"))
      else do
        let fr ← (match b.flat_road with
          | some v => do
            let n ← pyIntVal v
            pure [("FlatRoad", AVal.num n)]
          | none => pure [])
        let cad ← cadenceAttr ("Cadence") b.cadence
        .ok [⟨"FreeRide", [("Duration", AVal.num duration)] ++ fr ++ cad⟩]
    else if bt == "intervals" then do
      let rep ← pyIntVal (b.repeatF.getD (.pnum 0))
      if rep ≤ 0 then .error (.planError ("intervals requires repeat"))
      else do
        let onS ← blockDuration b.on_minutes b.on_seconds
        let offS ← blockDuration b.off_minutes b.off_seconds
        if onS ≤ 0 || offS ≤ 0 then .error (.planError ("intervals requires on/off duration"))
        else do
          let ron ← power_to_ratio (b.on_power.getD .pnone) ftp ("on_power")
          let roff ← power_to_ratio (b.off_power.getD .pnone) ftp ("off_power")
          let onA ← (if ron.2.2 then do
              let l ← require_power (ron.1.map .pnum) ("on_power_low")
              let h ← require_power (ron.2.1.map .pnum) ("on_power_high")
              pure [("PowerOnLow", AVal.num l), ("PowerOnHigh", AVal.num h)]
            else match ron.1 with
              | some l => pure [("OnPower", AVal.num l)]
              | none => pure [])
          let offA ← (if roff.2.2 then do
              let l ← require_power (roff.1.map .pnum) ("off_power_low")
              let h ← require_power (roff.2.1.map .pnum) ("off_power_high")
              pure [("PowerOffLow", AVal.num l), ("PowerOffHigh", AVal.num h)]
            else match roff.1 with
              | some l => pure [("OffPower", AVal.num l)]
              | none => pure [])
          let cad ← cadenceAttr ("Cadence") b.cadence
          let cadR ← cadenceAttr ("CadenceResting") b.cadence_rest
          .ok [⟨"IntervalsT",
            [("Repeat", AVal.num rep), ("OnDuration", AVal.num onS),
             ("OffDuration", AVal.num offS)] ++ onA ++ offA ++ cad ++ cadR⟩]
    else if bt == "maxeffort" then do
      let duration ← blockDuration b.minutes b.seconds
      if duration ≤ 0 then .error (.planError ("maxeffort requires minutes or seconds"))
      else .ok [⟨"MaxEffort", [("Duration", AVal.num duration)]⟩]
    else if bt == "textevent" then do
      let toff ← pyIntVal (b.time_offset.getD (.pnum 0))
      match b.message with
      | none => .error (.planError ("textevent requires message"))
      | some msg =>
        if pvFalsy msg then .error (.planError ("textevent requires message"))
        else .ok [⟨"textevent", [("timeoffset", AVal.num toff), ("message", pvAttr msg)]⟩]
    else .error (.planError (("Unsupported block type: ") ++ bt))

/-- A concrete steadystate leaf plan block used by claim C7. -/
def c7steady : PBlock :=
  { PBlock.empty with
      btype := some ("steadystate")
      seconds := some (.pnum 120)
      power := some (.pnum (3/4)) }

/-- A concrete freeride leaf plan block used by claim C7. -/
def c7free : PBlock :=
  { PBlock.empty with
      btype := some ("freeride")
      seconds := some (.pnum 60) }

/-! ### validate_zwo.py: the schema validator -/

/-- A parsed XML element: tag, attribute names in document order (the
validator reads only the names), children in document order. -/
inductive XElem where
  | mk : String → List String → List XElem → XElem

/-- Element tag. -/
def XElem.tag : XElem → String
  | .mk t _ _ => t

/-- Element attribute names. -/
def XElem.attrs : XElem → List String
  | .mk _ a _ => a

/-- Element children. -/
def XElem.children : XElem → List XElem
  | .mk _ _ c => c

mutual

/-- Document-order traversal including the element itself (root.iter()). -/
def preorder : XElem → List XElem
  | .mk t a cs => .mk t a cs :: preorderList cs

/-- Traversal of a sibling list. -/
def preorderList : List XElem → List XElem
  | [] => []
  | x :: xs => preorder x ++ preorderList xs

end

/-- A schema validation error (validate_zwo.py lines 62-79; the file-path
portion of the message text is dropped). -/
inductive VErr where
  | rootTag : String → VErr
  | missingWorkout : VErr
  | unknownElem : String → VErr
  | unknownAttr : String → String → VErr
deriving DecidableEq

/-- A schema validation warning (validate_zwo.py lines 82-85). -/
inductive VWarn where
  | attrNotListed : String → String → VWarn
deriving DecidableEq

/-- Per-element body of the validation loop (validate_zwo.py lines 71-86):
an unknown tag appends exactly one error and skips the attribute loop;
otherwise each attribute name is checked against the global set and, when
warn_on_mismatch is set and a non-empty per-tag list exists, against that
list for a warning. -/
def elemChecks (tags attrsG : List String) (byTag : List (String × List String))
    (warn : Bool) (e : XElem) : List VErr × List VWarn :=
  if !(tags.contains e.tag) then ([.unknownElem e.tag], [])
  else
    let perTag := (byTag.find? (fun p => p.1 == e.tag)).map (·.2)
    e.attrs.foldl (fun acc a =>
      if !(attrsG.contains a) then (acc.1 ++ [.unknownAttr a e.tag], acc.2)
      else
        match perTag with
        | some l =>
          if !l.isEmpty && !(l.contains a) && warn then
            (acc.1, acc.2 ++ [.attrNotListed a e.tag])
          else acc
        | none => acc) ([], [])

/-- Embedding of validate_file on a parsed document (validate_zwo.py lines
50-87): root-tag check, required workout child (searched among the direct
children), then the walk over every element. -/
def validate_file (doc : XElem) (tags attrsG : List String)
    (byTag : List (String × List String)) (warn : Bool) : List VErr × List VWarn :=
  let rootErrs :=
    (if doc.tag != "workout_file" then [VErr.rootTag doc.tag] else []) ++
    (if (doc.children.find? (fun c => c.tag == "workout")).isNone then
      [VErr.missingWorkout] else [])
  let per := (preorder doc).map (elemChecks tags attrsG byTag warn)
  (rootErrs ++ (per.map (·.1)).flatten, (per.map (·.2)).flatten)

/-! ### Helper lemmas -/

/-- The attribute fold of the validation loop never changes the error list
when every attribute name is in the global allowed set. -/
theorem validateFold_fst (attrsG : List String) (byTag : List (String × List String))
    (warn : Bool) (tg : String) :
    ∀ (l : List String) (acc : List VErr × List VWarn),
      (∀ a ∈ l, attrsG.contains a = true) →
      (l.foldl (fun acc a =>
        if !(attrsG.contains a) then (acc.1 ++ [VErr.unknownAttr a tg], acc.2)
        else
          match (byTag.find? (fun p => p.1 == tg)).map (·.2) with
          | some pl =>
            if !pl.isEmpty && !(pl.contains a) && warn then
              (acc.1, acc.2 ++ [VWarn.attrNotListed a tg])
            else acc
          | none => acc) acc).1 = acc.1 := by
  intro l
  induction l with
  | nil => intro acc _; rfl
  | cons a l ih =>
    intro acc h
    have ha : attrsG.contains a = true := h a (List.mem_cons_self a l)
    rw [List.foldl_cons]
    rw [ih _ (fun x hx => h x (List.mem_cons_of_mem a hx))]
    rw [ha]
    simp only [Bool.not_true, Bool.false_eq_true, if_false]
    split
    · split <;> rfl
    · rfl

/-- A per-element check contributes no errors when the tag is allowed and all
attribute names are globally allowed. -/
theorem elemChecks_errs_nil (tags attrsG : List String) (byTag : List (String × List String))
    (warn : Bool) (e : XElem) (ht : tags.contains e.tag = true)
    (ha : ∀ a ∈ e.attrs, attrsG.contains a = true) :
    (elemChecks tags attrsG byTag warn e).1 = [] := by
  unfold elemChecks
  rw [ht]
  simp only [Bool.not_true, Bool.false_eq_true, if_false]
  exact validateFold_fst attrsG byTag warn e.tag e.attrs ([], []) ha

/-- Bind on a successful Except value. -/
theorem except_bind_ok {ε α β : Type} (v : α) (f : α → Except ε β) :
    (Except.ok v >>= f) = f v := rfl

/-- Bind on a failed Except value. -/
theorem except_bind_err {ε α β : Type} (e : ε) (f : α → Except ε β) :
    ((Except.error e : Except ε α) >>= f) = Except.error e := rfl

/-! ### The claims -/

/-- Claim C1, counterexample: for total 3600 s with no intervals and no
explicit cooldown, the code's warmup total is not 600 s (the five warmup
blocks sum to more) and the resolver does not produce a 2400 s base. -/
theorem C1_counterexample :
    warmupSeconds (some 60) ≠ 600 ∧ resolveBudget (some 60) none [] [] ≠ .ok (600, 2400) := by
  decide

/-- Claim C1, amended: for a known total of 3600 s, no interval or set blocks
and no explicit cooldown, the warmup blocks total 840 s, the cooldown is
600 s and the base segment is 2160 s; with an explicit 2-minute (120 s)
cooldown the 300 s floor raises it to 300 s and the base segment is 2460 s. -/
theorem C1_amended :
    warmupSeconds (some 60) = 840 ∧
    resolveBudget (some 60) none [] [] = .ok (600, 2160) ∧
    resolveBudget (some 60) (some 2) [] [] = .ok (300, 2460) := by
  decide

/-- Claim C2, counterexample: for a known 30-minute total the five-block
standard warmup does not total 300 s. -/
theorem C2_counterexample :
    ((standard_warmup (some 30)).map (fun b => b.duration)).sum ≠ 300 := by
  decide

/-- Claim C2, amended: the standard warmup is a fixed 5-block sequence whose
first ramp block lasts 300 s when the total duration is known and under 45
minutes and 600 s otherwise (also when unknown); the sequence therefore
totals 540 s respectively 840 s. -/
theorem C2_amended :
    ∀ tm : Option Nat,
      (standard_warmup tm).length = 5 ∧
      ((standard_warmup tm).map (fun b => b.duration)).sum =
        (if warmupShort tm then 540 else 840) ∧
      ((standard_warmup tm).head?.map (fun b => b.duration)) =
        some (if warmupShort tm then 300 else 600) := by
  intro tm
  cases h : warmupShort tm <;> simp [standard_warmup, h]

/-- Claim C3, counterexample: the extracted total for the input 20-30 min is
not the range's upper bound 30. -/
theorem C3_counterexample :
    parse_total_minutes ("20-30 min") ≠ some 30 := by
  decide

/-- Claim C3, amended: for the input 20-30 min the extracted total is 60,
because the range category contributes its upper bound 30 and the trailing
30 min also matches the single-minutes category for another 30; in general
each category contributes only its last match, hours are converted at 60
minutes per hour, and the per-category contributions are summed (zero sums
give no total). -/
theorem C3_amended :
    parse_total_minutes ("20-30 min") = some 60 ∧
    rangeMinutesContrib (("20-30 min").data.map asciiLower) = 30 ∧
    singleMinutesContrib (("20-30 min").data.map asciiLower) = 30 ∧
    rangeHoursContrib (("20-30 min").data.map asciiLower) = 0 ∧
    singleHoursContrib (("20-30 min").data.map asciiLower) = 0 ∧
    ∀ s : String,
      parse_total_minutes s =
        (let t := s.data.map asciiLower
         let total := rangeMinutesContrib t + singleMinutesContrib t +
           rangeHoursContrib t + singleHoursContrib t
         if total == 0 then none else some total) := by
  refine ⟨by decide, by decide, by decide, by decide, by decide, fun s => rfl⟩

/-- Claim C4, confirmed: the free text 6x3-prime at 105-110 percent 3-prime
rbi with no threshold yields exactly one interval block with repeat 6, on and
off durations of 180 s, an on-power range 1.05 to 1.10 and off-power 0.5; and
in general a simple-interval match with no unit suffix is an error unless a
percent sign appears elsewhere in the matched substring. -/
theorem C4_interval_extraction :
    parse_intervals c4text none =
      .ok ([{ repeatCount := 6, on_seconds := 180, on_power := none, off_seconds := 180,
              off_power := some (1/2), on_power_low := some (21/20),
              on_power_high := some (11/10) }], []) ∧
    (∀ (cw cr : Option Int) (ftp : Option Rat) (m : RMatch),
      truthyCap (m.cap 6) = none → m.whole.contains '%' = false →
      ∃ e, processIntervalMatch cw cr ftp m = .error e) := by
  refine ⟨by with_unfolding_all decide, ?_⟩
  intro cw cr ftp m h6 hp
  have hp2 : ¬ ('%' ∈ m.whole) := by simpa using hp
  cases h1 : pyIntStr ((m.cap 1).getD []) with
  | error e => exact ⟨e, by simp [processIntervalMatch, h1, except_bind_err]⟩
  | ok v1 =>
    cases h2 : pyIntStr ((truthyCap (m.cap 2)).getD ((m.cap 1).getD [])) with
    | error e => exact ⟨e, by simp [processIntervalMatch, h1, h2, except_bind_ok, except_bind_err]⟩
    | ok v2 =>
      cases h3 : pyIntStr ((m.cap 3).getD []) with
      | error e =>
        exact ⟨e, by simp [processIntervalMatch, h1, h2, h3, except_bind_ok, except_bind_err]⟩
      | ok v3 =>
        cases h4 : pyFloatStr ((m.cap 4).getD []) with
        | error e =>
          exact ⟨e, by simp [processIntervalMatch, h1, h2, h3, h4, except_bind_ok, except_bind_err]⟩
        | ok v4 =>
          cases h5 : pyFloatStr ((truthyCap (m.cap 5)).getD ((m.cap 4).getD [])) with
          | error e =>
            exact ⟨e, by
              simp [processIntervalMatch, h1, h2, h3, h4, h5, except_bind_ok, except_bind_err]⟩
          | ok v5 =>
            exact ⟨.valueError ("Could not determine interval units; use % of FTP or watts"), by
              simp [processIntervalMatch, h1, h2, h3, h4, h5, h6, hp2,
                except_bind_ok, except_bind_err]⟩

/-- Claim C4, witness: a match record with no unit group and no percent sign
in its matched substring makes the loop body fail. -/
theorem C4_witness :
    ∃ e, processIntervalMatch none none none
      ⟨("6x3 @105").data, [(1, ("6").data), (3, ("3").data), (4, ("105").data)]⟩ = .error e :=
  C4_interval_extraction.2 none none none
    ⟨("6x3 @105").data, [(1, ("6").data), (3, ("3").data), (4, ("105").data)]⟩ rfl rfl

/-- Claim C5, confirmed: with an unknown total the resolver always succeeds,
emits no base block and performs no feasibility check; with a known total it
uses the base formula, retries exactly once with the cooldown forced to the
300 s floor when the base is negative, and fails with the budget error when
the base is still negative. -/
theorem C5_budget :
    (∀ (cm : Option Nat) (ibs : List IntervalBlock) (sbs : List SetBlock),
      resolveBudget none cm ibs sbs = .ok (cooldownSecondsInit cm, 0) ∧
      baseBlockCount none cm ibs sbs = 0) ∧
    (∀ (m : Nat) (cm : Option Nat) (ibs : List IntervalBlock) (sbs : List SetBlock),
      0 < m →
      ((0 : Int) ≤ (m : Int) * 60 - (warmupSeconds (some m) : Int) -
          (cooldownSecondsInit cm : Int) - intervalsSeconds ibs sbs →
        resolveBudget (some m) cm ibs sbs =
          .ok (cooldownSecondsInit cm,
            (m : Int) * 60 - (warmupSeconds (some m) : Int) -
              (cooldownSecondsInit cm : Int) - intervalsSeconds ibs sbs)) ∧
      ((m : Int) * 60 - (warmupSeconds (some m) : Int) -
          (cooldownSecondsInit cm : Int) - intervalsSeconds ibs sbs < 0 →
        (0 : Int) ≤ (m : Int) * 60 - (warmupSeconds (some m) : Int) -
          (MIN_COOLDOWN_SECONDS : Int) - intervalsSeconds ibs sbs →
        resolveBudget (some m) cm ibs sbs =
          .ok (MIN_COOLDOWN_SECONDS,
            (m : Int) * 60 - (warmupSeconds (some m) : Int) -
              (MIN_COOLDOWN_SECONDS : Int) - intervalsSeconds ibs sbs)) ∧
      ((m : Int) * 60 - (warmupSeconds (some m) : Int) -
          (cooldownSecondsInit cm : Int) - intervalsSeconds ibs sbs < 0 →
        (m : Int) * 60 - (warmupSeconds (some m) : Int) -
          (MIN_COOLDOWN_SECONDS : Int) - intervalsSeconds ibs sbs < 0 →
        resolveBudget (some m) cm ibs sbs =
          .error (.valueError ("Not enough time for warmup/intervals/cooldown")))) := by
  constructor
  · intro cm ibs sbs
    exact ⟨rfl, rfl⟩
  · intro m cm ibs sbs hm
    have hm0 : (m == 0) = false := by
      simp only [beq_eq_false_iff_ne, ne_eq]
      omega
    refine ⟨?_, ?_, ?_⟩
    · intro h1
      unfold resolveBudget
      simp only [hm0, Bool.false_eq_true, if_false]
      rw [if_neg (by omega)]
    · intro h1 h2
      unfold resolveBudget
      simp only [hm0, Bool.false_eq_true, if_false]
      rw [if_pos (by omega), if_neg (by omega)]
    · intro h1 h2
      unfold resolveBudget
      simp only [hm0, Bool.false_eq_true, if_false]
      rw [if_pos (by omega), if_pos (by omega)]

/-- Claim C5, witness: an unknown total with an explicit 2-minute cooldown
succeeds with base 0, and a known 10-minute total (warmup 540 s alone
leaves -540 s, the floor retry still leaves -240 s) raises the budget
error. -/
theorem C5_witness :
    resolveBudget none (some 2) [] [] = .ok (cooldownSecondsInit (some 2), 0) ∧
    baseBlockCount none (some 2) [] [] = 0 ∧
    resolveBudget (some 10) none [] [] =
      .error (.valueError ("Not enough time for warmup/intervals/cooldown")) :=
  ⟨(C5_budget.1 (some 2) [] []).1, (C5_budget.1 (some 2) [] []).2,
   (C5_budget.2 10 none [] [] (by decide)).2.2 (by decide) (by decide)⟩

/-- Claim C6, counterexample: for 4x5-prime at 100 percent the parsed low and
high powers agree, yet the block still records the low/high pair next to the
single on-power, and the emitted element carries the PowerOnLow attribute, so
the single power does not replace the range pair. -/
theorem C6_counterexample :
    parse_intervals c6text none =
      .ok ([{ repeatCount := 4, on_seconds := 300, on_power := some 1, off_seconds := 300,
              off_power := some (1/2), on_power_low := some 1, on_power_high := some 1 }], []) ∧
    ("PowerOnLow") ∈ ((intervalAttrs
      { repeatCount := 4, on_seconds := 300, on_power := some 1, off_seconds := 300,
        off_power := some (1/2), on_power_low := some 1,
        on_power_high := some 1 }).map (·.1)) := by
  with_unfolding_all decide

/-- Claim C6, amended: for every simple-interval match whose parsed low and
high on-powers are equal, the extractor records the single fixed on-power in
addition to the low/high fields, and the emitted element carries OnPower
together with PowerOnLow and PowerOnHigh. -/
theorem C6_amended :
    ∀ (rep onMin : Int) (l h : Rat) (cw cr : Option Int), l = h →
      (buildIntervalBlock rep onMin l h cw cr).on_power = some l ∧
      (buildIntervalBlock rep onMin l h cw cr).on_power_low = some l ∧
      (buildIntervalBlock rep onMin l h cw cr).on_power_high = some l ∧
      ("OnPower") ∈ ((intervalAttrs (buildIntervalBlock rep onMin l h cw cr)).map (·.1)) ∧
      ("PowerOnLow") ∈ ((intervalAttrs (buildIntervalBlock rep onMin l h cw cr)).map (·.1)) ∧
      ("PowerOnHigh") ∈ ((intervalAttrs (buildIntervalBlock rep onMin l h cw cr)).map (·.1)) := by
  intro rep onMin l h cw cr hlh
  subst hlh
  refine ⟨by simp [buildIntervalBlock], rfl, rfl, ?_, ?_, ?_⟩ <;>
    simp [buildIntervalBlock, intervalAttrs]

/-- Claim C6, witness: the amended statement at the concrete equal powers of
the 4x5-prime at 100 percent interval. -/
theorem C6_witness :
    (buildIntervalBlock 4 5 1 1 none none).on_power = some 1 ∧
    (buildIntervalBlock 4 5 1 1 none none).on_power_low = some 1 ∧
    (buildIntervalBlock 4 5 1 1 none none).on_power_high = some 1 ∧
    ("OnPower") ∈ ((intervalAttrs (buildIntervalBlock 4 5 1 1 none none)).map (·.1)) ∧
    ("PowerOnLow") ∈ ((intervalAttrs (buildIntervalBlock 4 5 1 1 none none)).map (·.1)) ∧
    ("PowerOnHigh") ∈ ((intervalAttrs (buildIntervalBlock 4 5 1 1 none none)).map (·.1)) :=
  C6_amended 4 5 1 1 none none rfl

/-- Claim C7, counterexample: a repeat block whose times value is the
non-integer 5/2 is not rejected; int() truncation makes it emit its child
twice. -/
theorem C7_counterexample :
    ((5 : Rat) / 2).den ≠ 1 ∧
    emit_block 2 none
      { PBlock.empty with
          btype := some ("repeat")
          times := some (.pnum (5/2))
          children := [c7free] } =
      .ok [⟨"FreeRide", [("Duration", AVal.num 60)]⟩,
           ⟨"FreeRide", [("Duration", AVal.num 60)]⟩] := by
  with_unfolding_all decide

/-- Claim C7, amended: a repeat block with times 3 around two child leaf
blocks emits exactly 6 leaf segments, the original child order repeated three
times; a times value whose int() truncation is not positive is an error,
while a non-integer numeric times is truncated rather than rejected. -/
theorem C7_amended :
    emit_block 2 none
      { PBlock.empty with
          btype := some ("repeat")
          times := some (.pnum 3)
          children := [c7steady, c7free] } =
      .ok [⟨"SteadyState", [("Duration", AVal.num 120), ("Power", AVal.num (3/4))]⟩,
           ⟨"FreeRide", [("Duration", AVal.num 60)]⟩,
           ⟨"SteadyState", [("Duration", AVal.num 120), ("Power", AVal.num (3/4))]⟩,
           ⟨"FreeRide", [("Duration", AVal.num 60)]⟩,
           ⟨"SteadyState", [("Duration", AVal.num 120), ("Power", AVal.num (3/4))]⟩,
           ⟨"FreeRide", [("Duration", AVal.num 60)]⟩] ∧
    (∀ (fuel : Nat) (ftp : Option Rat) (b : PBlock) (n : Int),
      b.btype = some ("repeat") →
      pyIntVal (b.times.getD (.pnum 0)) = .ok n → n ≤ 0 →
      emit_block (fuel + 1) ftp b = .error (.planError ("repeat.times must be > 0"))) := by
  refine ⟨by with_unfolding_all decide, ?_⟩
  intro fuel ftp b n hb ht hn
  simp [emit_block, hb, ht, hn, except_bind_ok]

/-- Claim C7, witness: a repeat block with times 0 is rejected with the
repeat.times error. -/
theorem C7_witness :
    emit_block 1 none
      { PBlock.empty with btype := some ("repeat"), times := some (.pnum 0) } =
      .error (.planError ("repeat.times must be > 0")) :=
  C7_amended.2 0 none
    { PBlock.empty with btype := some ("repeat"), times := some (.pnum 0) }
    0 rfl (by with_unfolding_all decide) (by decide)

/-- Claim C8, confirmed: an element with a tag outside the allowed set
contributes exactly one unknown-element error regardless of its attributes,
which are not checked; and a document whose root is workout_file, which has a
workout child, and whose every element tag and attribute name is allowed,
validates with zero errors in either warn mode. -/
theorem C8_validator :
    (∀ (tags attrsG : List String) (byTag : List (String × List String)) (warn : Bool)
      (e : XElem), tags.contains e.tag = false →
      elemChecks tags attrsG byTag warn e = ([.unknownElem e.tag], [])) ∧
    (∀ (doc : XElem) (tags attrsG : List String) (byTag : List (String × List String))
      (warn : Bool),
      doc.tag = "workout_file" →
      (doc.children.find? (fun c => c.tag == "workout")).isSome = true →
      (∀ e ∈ preorder doc, tags.contains e.tag = true ∧ ∀ a ∈ e.attrs, attrsG.contains a = true) →
      (validate_file doc tags attrsG byTag warn).1 = []) := by
  constructor
  · intro tags attrsG byTag warn e ht
    unfold elemChecks
    rw [ht]
    rfl
  · intro doc tags attrsG byTag warn hroot hwk hall
    have h1 : (doc.tag != "workout_file") = false := by simp [hroot]
    have h2 : (doc.children.find? (fun c => c.tag == "workout")).isNone = false := by
      rcases hfind : doc.children.find? (fun c => c.tag == "workout") with _ | v
      · rw [hfind] at hwk
        simp at hwk
      · rw [hfind]
        rfl
    unfold validate_file
    simp only [h1, h2, Bool.false_eq_true, if_false, List.nil_append]
    rw [List.flatten_eq_nil_iff]
    intro l hl
    simp only [List.map_map, List.mem_map, Function.comp] at hl
    obtain ⟨e, he, rfl⟩ := hl
    exact elemChecks_errs_nil tags attrsG byTag warn e (hall e he).1 (hall e he).2

/-- Claim C8, witness: a one-attribute element with an unknown tag yields
exactly the one unknown-element error, and a fully allowed document with the
required structure validates cleanly. -/
theorem C8_witness :
    elemChecks [("workout_file")] [] [] true (.mk ("bogus") [("Duration")] []) =
      ([.unknownElem ("bogus")], []) ∧
    (validate_file (.mk ("workout_file") [] [.mk ("workout") [] []])
      [("workout_file"), ("workout")] [] [] true).1 = [] := by
  constructor
  · exact C8_validator.1 [("workout_file")] [] [] true (.mk ("bogus") [("Duration")] []) (by decide)
  · exact C8_validator.2 (.mk ("workout_file") [] [.mk ("workout") [] []])
      [("workout_file"), ("workout")] [] [] true rfl (by decide) (by decide)

/-- Claim C9, confirmed: power_to_ratio on a watts value errors whenever the
threshold is null or zero, and with a non-null non-zero threshold returns the
ratio watts over threshold as a fixed non-range result. -/
theorem C9_power_watts :
    (∀ (w : Rat) (f : String),
      power_to_ratio (.pdict none (some w)) none f =
        .error (.planError (("FTP required for watts in ") ++ f)) ∧
      power_to_ratio (.pdict none (some w)) (some 0) f =
        .error (.planError (("FTP required for watts in ") ++ f))) ∧
    (∀ (w t : Rat) (f : String), t ≠ 0 →
      power_to_ratio (.pdict none (some w)) (some t) f = .ok (some (w / t), none, false)) := by
  constructor
  · intro w f
    constructor
    · rfl
    · simp [power_to_ratio]
  · intro w t f ht
    simp [power_to_ratio, ht]

/-- Claim C9, witness: 200 watts at threshold 250 resolves to the fixed ratio
200 over 250. -/
theorem C9_witness :
    power_to_ratio (.pdict none (some 200)) (some 250) ("on_power") =
      .ok (some ((200 : Rat) / 250), none, false) :=
  C9_power_watts.2 200 250 ("on_power") (by norm_num)

/-- Claim C10, confirmed: a list value whose length is not 2 skips the range
branch and every other typed branch, reaching the final numeric coercion,
which on a list raises TypeError rather than the compiler's PlanError. -/
theorem C10_list_coercion :
    ∀ (xs : List PVal) (ftp : Option Rat) (f : String), xs.length ≠ 2 →
      power_to_ratio (.plist xs) ftp f = .error .typeError := by
  intro xs ftp f h
  match xs with
  | [] => rfl
  | [_] => rfl
  | [_, _] => exact absurd rfl h
  | _ :: _ :: _ :: _ => rfl

/-- Claim C10, witness: a three-element numeric list yields TypeError. -/
theorem C10_witness :
    power_to_ratio (.plist [.pnum 1, .pnum 2, .pnum 3]) none ("power") = .error .typeError :=
  C10_list_coercion [.pnum 1, .pnum 2, .pnum 3] none ("power") (by decide)
